import Mathlib

/-!
Shallow embedding of the notification backend (`src/server.js`) of
nylosantos/worship-schedule-backend, together with proofs of the
frozen claims about it.

Modelling conventions:
* The Firestore document store is external to the repository; following the
  spec's design note (§9), its `set(..., { merge: true })` upsert is modelled
  as read-modify-write with shallow per-field overwrite: every top-level field
  supplied in the call replaces the stored field, fields not supplied are kept.
* `crypto.createHash('sha256')...digest('hex')` is modelled by an injective,
  deterministic key derivation `tokenId`; determinism and collision-freedom
  are the only properties the program relies on.
* Server timestamps are `Nat` values supplied at each call.
* JS `undefined` becomes `Option.none`; JS string falsiness ("" is falsy) is
  modelled explicitly where the code tests truthiness.
* The push gateway (`messaging.sendEachForMulticast`) is a parameter
  `gateway : List String → Nat × Nat` returning `(successCount, failureCount)`;
  each embedded operation additionally returns the list of multicast calls it
  issued, so "never contacts the gateway" is the trace being empty.
* Calendar arithmetic of the JS `Date` library is external; times are modelled
  at day granularity as integers, and `firstOfNextMonth` is a parameter.
-/

namespace WorshipBackend

/-- Models `tokenId` in src/server.js: a deterministic content-derived key for
a raw push token (sha256 hex in the source). The stand-in is injective, which
models the cryptographic collision-freedom the design relies on. -/
def tokenId (token : String) : String :=
  "sha256:" ++ token

theorem tokenId_injective : Function.Injective tokenId := by
  intro a b h
  have h2 : ("sha256:" ++ a).data = ("sha256:" ++ b).data :=
    congrArg String.data h
  simp only [String.data_append] at h2
  have := List.append_cancel_left h2
  exact String.ext this

/-- A document of the `notification_devices` collection. Fields absent from a
document are `none` / `[]`. `preferences` is the JS object mapping category
names to booleans, as an association list. -/
structure DeviceDoc where
  id : String
  token : Option String := none
  userId : Option String := none
  role : Option String := none
  preferences : List (String × Bool) := []
  enabled : Bool := false
  platform : Option String := none
  createdAt : Option Nat := none
  updatedAt : Option Nat := none
deriving Repr, DecidableEq

/-- The `notification_devices` collection: a list of documents. -/
abbrev Store := List DeviceDoc

/-- Lookup `preferences?.[category]` on the stored preference object. -/
def prefLookup (prefs : List (String × Bool)) (cat : String) : Option Bool :=
  (prefs.find? (fun p => p.1 == cat)).map (·.2)

/-- Firestore `doc(docId).set(fields, { merge: true })`, modelled per the
spec's §9 note as shallow per-field overwrite: if a document with `docId`
exists it is rewritten by `f` (which overwrites exactly the supplied fields),
otherwise a fresh document `init` holding only the supplied fields is added. -/
def setMerge (s : Store) (docId : String) (f : DeviceDoc → DeviceDoc)
    (init : DeviceDoc) : Store :=
  if s.any (fun d => d.id == docId) then
    s.map (fun d => if d.id == docId then f d else d)
  else
    s ++ [init]

/-- JS `x || dflt` for an optional string (both `undefined` and `""` fall
through to the default). -/
def jsOrDefault (o : Option String) (dflt : String) : String :=
  match o with
  | some s => if s = "" then dflt else s
  | none => dflt

/-- `POST /api/register-device` (src/server.js lines 82–103): validates the
token, then merge-sets the full device document, including
`createdAt: serverTimestamp()` on every call. -/
def registerDevice (s : Store) (rawToken uid : String) (role : Option String)
    (preferences : Option (List (String × Bool))) (platform : Option String)
    (ts : Nat) : Except String Store :=
  if rawToken = "" then .error "token obbligatorio"
  else
    .ok (setMerge s (tokenId rawToken)
      (fun d =>
        { d with
          token := some rawToken
          userId := some uid
          role := some (jsOrDefault role "member")
          preferences := preferences.getD []
          enabled := true
          platform := some (jsOrDefault platform "unknown")
          updatedAt := some ts
          createdAt := some ts })
      { id := tokenId rawToken
        token := some rawToken
        userId := some uid
        role := some (jsOrDefault role "member")
        preferences := preferences.getD []
        enabled := true
        platform := some (jsOrDefault platform "unknown")
        updatedAt := some ts
        createdAt := some ts })

/-- `POST /api/unregister-device` (src/server.js lines 105–120): validates the
token, then merge-sets `enabled: false` and `updatedAt` on the document keyed
by the token's hash. -/
def unregisterDevice (s : Store) (rawToken : String) (ts : Nat) :
    Except String Store :=
  if rawToken = "" then .error "token obbligatorio"
  else
    .ok (setMerge s (tokenId rawToken)
      (fun d => { d with enabled := false, updatedAt := some ts })
      { id := tokenId rawToken, enabled := false, updatedAt := some ts })

/-- JS `enabled !== false`: the stored enabled flag after
`POST /api/update-device-preferences`. -/
def jsEnabledFlag (enabled : Option Bool) : Bool :=
  match enabled with
  | some false => false
  | _ => true

/-- `POST /api/update-device-preferences` (src/server.js lines 122–138):
validates the token, then merge-sets `preferences || {}` (a whole-field
overwrite of the preference map), `enabled: enabled !== false` and
`updatedAt`. -/
def updateDevicePreferences (s : Store) (rawToken : String)
    (preferences : Option (List (String × Bool))) (enabled : Option Bool)
    (ts : Nat) : Except String Store :=
  if rawToken = "" then .error "token obbligatorio"
  else
    .ok (setMerge s (tokenId rawToken)
      (fun d =>
        { d with
          preferences := preferences.getD []
          enabled := jsEnabledFlag enabled
          updatedAt := some ts })
      { id := tokenId rawToken
        preferences := preferences.getD []
        enabled := jsEnabledFlag enabled
        updatedAt := some ts })

/-- JS `[...new Set(xs)]`: keeps the first occurrence of each element, in
encounter order. -/
def dedupFirst (l : List String) : List String :=
  l.foldl (fun acc x => if x ∈ acc then acc else acc ++ [x]) []

/-- The chunking loop `for (let i = 0; i < xs.length; i += 10) push(xs.slice(i, i + 10))`
shared by `collectDeviceTokensByUserIds` and `collectUserIdsByLinkedPersonIds`:
chunk `k` is `xs.slice(10*k, 10*k + 10)`, and there are `⌈xs.length / 10⌉`
iterations. -/
def chunksOf10 (l : List α) : List (List α) :=
  (List.range ((l.length + 9) / 10)).map (fun i => (l.drop (10 * i)).take 10)

/-- The store query
`where('enabled','==',true).where('userId','in',group)` over the
`notification_devices` collection. A document without a `userId` field matches
no `in` filter. -/
def queryDevices (s : Store) (group : List String) : List DeviceDoc :=
  s.filter (fun d =>
    d.enabled &&
      (match d.userId with
       | some u => group.contains u
       | none => false))

/-- The per-document body of `snap.forEach` in `collectDeviceTokensByUserIds`:
skip when `preferences?.[category] === false`, then push `data.token` only when
it is truthy (present and non-empty). Returns the pushed token, if any. -/
def gateToken (category : String) (d : DeviceDoc) : Option String :=
  if prefLookup d.preferences category = some false then none
  else
    match d.token with
    | some t => if t = "" then none else some t
    | none => none

/-- `collectDeviceTokensByUserIds(userIds, category)` (src/server.js lines
140–163): early return on empty input, chunked queries of ≤10 user ids,
preference gate per returned document, dedup via `new Set`. -/
def collectDeviceTokensByUserIds (s : Store) (userIds : List String)
    (category : String) : List String :=
  if userIds.isEmpty then []
  else
    dedupFirst
      ((chunksOf10 userIds).flatMap
        (fun group => (queryDevices s group).filterMap (gateToken category)))

/-- `link || APP_BASE_URL || '/'`. -/
def resolveLink (link : Option String) (appBaseUrl : String) : String :=
  match link with
  | some l => if l = "" then (if appBaseUrl = "" then "/" else appBaseUrl) else l
  | none => if appBaseUrl = "" then "/" else appBaseUrl

/-- One `messaging.sendEachForMulticast` request as issued by `sendToUsers`. -/
structure DispatchCall where
  tokens : List String
  title : String
  body : String
  link : String
  category : String
deriving Repr, DecidableEq

/-- `sendToUsers` (src/server.js lines 165–191): collect the eligible tokens;
if none, return `{success: 0, failure: 0}` without contacting the gateway;
otherwise issue exactly one multicast request and return the gateway's counts
verbatim. The second component is the trace of gateway calls issued. -/
def sendToUsers (gateway : List String → Nat × Nat) (appBaseUrl : String)
    (s : Store) (userIds : List String) (title body : String)
    (link : Option String) (category : String) :
    (Nat × Nat) × List DispatchCall :=
  let tokens := collectDeviceTokensByUserIds s userIds category
  if tokens.isEmpty then ((0, 0), [])
  else
    (gateway tokens,
     [{ tokens := tokens, title := title, body := body
        link := resolveLink link appBaseUrl, category := category }])

/-- A document of the `users` collection (external, read-only here). -/
structure UserRec where
  id : String
  active : Bool := false
  role : String := "member"
  linkedPersonId : Option String := none
deriving Repr, DecidableEq

/-- The store query
`where('active','==',true).where('linkedPersonId','in',group)` over `users`,
mapped to document ids. -/
def usersLinkedTo (users : List UserRec) (group : List String) : List String :=
  (users.filter (fun u =>
    u.active &&
      (match u.linkedPersonId with
       | some p => group.contains p
       | none => false))).map (·.id)

/-- `collectUserIdsByLinkedPersonIds` (src/server.js lines 193–211): clean and
dedup the person ids, chunked queries of ≤10, dedup the union of results. -/
def collectUserIdsByLinkedPersonIds (users : List UserRec)
    (personIds : List String) : List String :=
  let cleanIds := dedupFirst (personIds.filter (fun p => p ≠ ""))
  if cleanIds.isEmpty then []
  else
    dedupFirst ((chunksOf10 cleanIds).flatMap (fun group => usersLinkedTo users group))

/-- Active users with role `root` mapped to their ids ("all active elevated
users" of the monthly reminder, src/server.js lines 363–368). -/
def activeRootUserIds (users : List UserRec) : List String :=
  (users.filter (fun u => u.active && u.role == "root")).map (·.id)

/-- Active users with role `minister` mapped to their ids (the fallback
recipients of the repertoire reminder, src/server.js lines 431–438). -/
def activeMinisterUserIds (users : List UserRec) : List String :=
  (users.filter (fun u => u.active && u.role == "minister")).map (·.id)

/-- A document of the `schedules` collection, as read by the reminder jobs:
its month key and embedded service assignments. -/
structure Assignment where
  personId : Option String := none
  positionId : String := ""
deriving Repr, DecidableEq

structure SchedService where
  serviceId : String
  assignments : List Assignment := []
deriving Repr, DecidableEq

structure Schedule where
  month : String
  services : List SchedService := []
deriving Repr, DecidableEq

/-- A document of the `services` collection; `songs` stands for the
`services/{id}/songs` sub-collection, of which the job only tests emptiness. -/
structure Service where
  id : String
  date : String := ""
  name : String := ""
  startTime : String := ""
  songs : List String := []
deriving Repr, DecidableEq

/-- Default of env var `WORSHIP_LEADER_POSITION_ID` (src/server.js line 20). -/
def worshipLeaderPositionId : String := "ybW9FNApDIiZrTDH2fiX"

/-- Outcome of the monthly-schedule reminder job. -/
inductive MonthlyOutcome where
  | skipped (reason : String)
  | sent (month : String) (recipients success failure : Nat)
deriving Repr, DecidableEq

/-- `POST /api/cron/remind-next-month-schedule` (src/server.js lines 339–378),
after the cron-secret check. Time is at day granularity: `now` and
`nextMonthStart` (the first day of next month, computed by the external Date
library) are day numbers; `reminderStart` is 7 days before `nextMonthStart`,
and the job skips when `now < reminderStart`. `monthKey` is the formatted
`YYYY-MM` of `nextMonthStart`. Skips when a schedule for `monthKey` already
exists; otherwise notifies all active root users. -/
def remindNextMonthSchedule (gateway : List String → Nat × Nat)
    (appBaseUrl : String) (users : List UserRec) (devices : Store)
    (schedules : List Schedule) (now nextMonthStart : Int) (monthKey : String) :
    MonthlyOutcome × List DispatchCall :=
  if now < nextMonthStart - 7 then (.skipped "outside reminder window", [])
  else if schedules.any (fun sc => sc.month == monthKey) then
    (.skipped "schedule already exists", [])
  else
    let recipients := activeRootUserIds users
    let r := sendToUsers gateway appBaseUrl devices recipients
      "Promemoria scala mensile"
      ("Manca la scala di " ++ monthKey ++ ". Generala appena possibile.")
      (some "/schedules/generate") "reminder"
    (.sent monthKey recipients.length r.1.1 r.1.2, r.2)

/-- The worship-lead resolution of the repertoire-entry reminder
(src/server.js lines 410–429): find the schedule of the service's month
(`date.slice(0, 7)`), find the service's assignments in it, find the
assignment with the worship-leader position id, and, when its `personId` is
truthy, resolve it to linked users; in every other case the result is `[]`. -/
def serviceSongsEntryLeadRecipients (users : List UserRec)
    (schedules : List Schedule) (service : Service) : List String :=
  let month := service.date.take 7
  match schedules.find? (fun sc => sc.month == month) with
  | none => []
  | some schedule =>
    let scheduleService := schedule.services.find? (fun s => s.serviceId == service.id)
    let assignments : List Assignment :=
      match scheduleService with
      | some ss => ss.assignments
      | none => []
    let worshipLeader := assignments.find? (fun a => a.positionId == worshipLeaderPositionId)
    match worshipLeader with
    | some wl =>
      match wl.personId with
      | some p => if p = "" then [] else collectUserIdsByLinkedPersonIds users [p]
      | none => []
    | none => []

/-- Recipients for one service of the repertoire-entry reminder: the resolved
worship-lead users, falling back to all active ministers when empty
(src/server.js lines 431–438). -/
def serviceSongsEntryRecipients (users : List UserRec)
    (schedules : List Schedule) (service : Service) : List String :=
  let r := serviceSongsEntryLeadRecipients users schedules service
  if r.isEmpty then activeMinisterUserIds users else r

/-- Aggregate summary returned by the repertoire-entry reminder job. -/
structure JobSummary where
  targetDate : String
  checkedServices : Nat
  notifiedServices : Nat
  recipients : Nat
  success : Nat
  failure : Nat
deriving Repr, DecidableEq

/-- The body of the service loop in `POST /api/cron/remind-service-songs-entry`
(src/server.js lines 400–452): a service with at least one song sub-document
is skipped (`continue`); otherwise the recipients are resolved, one
`sendToUsers` dispatch is made, and the counters are accumulated. -/
def remindServiceSongsEntryStep (gateway : List String → Nat × Nat)
    (appBaseUrl : String) (users : List UserRec) (devices : Store)
    (schedules : List Schedule) (acc : JobSummary × List DispatchCall)
    (service : Service) : JobSummary × List DispatchCall :=
  if !service.songs.isEmpty then acc
  else
    let recipients := serviceSongsEntryRecipients users schedules service
    let r := sendToUsers gateway appBaseUrl devices recipients
      "Promemoria repertorio culto"
      ("Mancano le canzoni per il culto " ++ service.name ++ " (" ++
        service.date ++ " " ++ service.startTime ++ ").")
      (some ("/services/" ++ service.id)) "reminder"
    ({ acc.1 with
       notifiedServices := acc.1.notifiedServices + 1
       recipients := acc.1.recipients + recipients.length
       success := acc.1.success + r.1.1
       failure := acc.1.failure + r.1.2 }, acc.2 ++ r.2)

/-- `POST /api/cron/remind-service-songs-entry` (src/server.js lines 380–463),
after the cron-secret check, with `targetDate = today + daysBefore` as computed
by the external Date library: fold the loop body over the services dated
`targetDate`. -/
def remindServiceSongsEntry (gateway : List String → Nat × Nat)
    (appBaseUrl : String) (users : List UserRec) (devices : Store)
    (schedules : List Schedule) (services : List Service) (targetDate : String) :
    JobSummary × List DispatchCall :=
  let todays := services.filter (fun s => s.date == targetDate)
  todays.foldl (remindServiceSongsEntryStep gateway appBaseUrl users devices schedules)
    ({ targetDate := targetDate, checkedServices := todays.length
       notifiedServices := 0, recipients := 0, success := 0, failure := 0 }, [])

/-- A device-registry operation, as reachable through the three device HTTP
endpoints. Used to express "until the device is re-enabled" over arbitrary
subsequent operation sequences. -/
inductive DeviceOp where
  | register (rawToken uid : String) (role : Option String)
      (preferences : Option (List (String × Bool))) (platform : Option String)
      (ts : Nat)
  | unregister (rawToken : String) (ts : Nat)
  | updatePrefs (rawToken : String)
      (preferences : Option (List (String × Bool))) (enabled : Option Bool)
      (ts : Nat)
deriving Repr

/-- Apply one endpoint operation to the store; a call rejected by validation
(empty token, HTTP 400) leaves the store unchanged. -/
def applyOp (s : Store) (op : DeviceOp) : Store :=
  match op with
  | .register rawToken uid role preferences platform ts =>
    (registerDevice s rawToken uid role preferences platform ts).toOption.getD s
  | .unregister rawToken ts =>
    (unregisterDevice s rawToken ts).toOption.getD s
  | .updatePrefs rawToken preferences enabled ts =>
    (updateDevicePreferences s rawToken preferences enabled ts).toOption.getD s

def applyOps (s : Store) (ops : List DeviceOp) : Store :=
  ops.foldl applyOp s

/-- Does the operation re-enable the device of `rawToken`? Registration sets
`enabled := true`, and a preference update sets it to `enabled !== false`. -/
def reenables (rawToken : String) : DeviceOp → Bool
  | .register t _ _ _ _ _ => t == rawToken
  | .unregister _ _ => false
  | .updatePrefs t _ enabled _ => t == rawToken && jsEnabledFlag enabled

/-- Store well-formedness: every document's key is the content-derived key of
its stored token (the invariant Firestore keying by `tokenId` maintains). -/
def WFStore (s : Store) : Prop :=
  ∀ d ∈ s, ∀ t, d.token = some t → d.id = tokenId t

/-! ### Basic lemmas about the JS `Set` dedup and the chunking loop -/

theorem dedupFirst_go_mem (l : List String) (acc : List String) (a : String) :
    a ∈ l.foldl (fun acc x => if x ∈ acc then acc else acc ++ [x]) acc ↔
      a ∈ acc ∨ a ∈ l := by
  induction l generalizing acc with
  | nil => simp
  | cons x xs ih =>
    simp only [List.foldl_cons, List.mem_cons]
    by_cases hx : x ∈ acc
    · rw [if_pos hx, ih]
      constructor
      · rintro (h | h)
        · exact Or.inl h
        · exact Or.inr (Or.inr h)
      · rintro (h | h | h)
        · exact Or.inl h
        · exact Or.inl (by rw [h]; exact hx)
        · exact Or.inr h
    · rw [if_neg hx, ih]
      simp only [List.mem_append, List.mem_singleton]
      tauto

theorem mem_dedupFirst (l : List String) (a : String) :
    a ∈ dedupFirst l ↔ a ∈ l := by
  unfold dedupFirst
  rw [dedupFirst_go_mem]
  simp

theorem dedupFirst_go_nodup (l : List String) (acc : List String)
    (hacc : acc.Nodup) :
    (l.foldl (fun acc x => if x ∈ acc then acc else acc ++ [x]) acc).Nodup := by
  induction l generalizing acc with
  | nil => simp [hacc]
  | cons x xs ih =>
    simp only [List.foldl_cons]
    by_cases hx : x ∈ acc
    · rw [if_pos hx]; exact ih acc hacc
    · rw [if_neg hx]
      refine ih _ ?_
      simp [List.nodup_append, hacc, hx]

theorem dedupFirst_nodup (l : List String) : (dedupFirst l).Nodup :=
  dedupFirst_go_nodup l [] List.nodup_nil

theorem chunksOf10_length_le (l : List α) :
    ∀ c ∈ chunksOf10 l, c.length ≤ 10 := by
  intro c hc
  simp only [chunksOf10, List.mem_map] at hc
  obtain ⟨i, _, rfl⟩ := hc
  simp

theorem chunksOf10_succ (l : List α) (n : ℕ) :
    (List.range (n + 1)).map (fun i => (l.drop (10 * i)).take 10) =
      l.take 10 :: (List.range n).map (fun i => ((l.drop 10).drop (10 * i)).take 10) := by
  rw [List.range_succ_eq_map]
  simp only [List.map_cons, Nat.mul_zero, List.drop_zero, List.map_map]
  congr 1
  apply List.map_congr_left
  intro i _
  simp only [Function.comp_apply, List.drop_drop]
  congr 2
  omega

theorem chunksOf10_join (n : ℕ) (l : List α) (h : l.length ≤ 10 * n) :
    ((List.range n).map (fun i => (l.drop (10 * i)).take 10)).flatten = l := by
  induction n generalizing l with
  | zero =>
    simp only [Nat.mul_zero, Nat.le_zero, List.length_eq_zero] at h
    simp [h]
  | succ n ih =>
    rw [chunksOf10_succ, List.flatten_cons, ih (l.drop 10) (by simp; omega)]
    exact List.take_append_drop 10 l

theorem chunksOf10_flatten (l : List α) : (chunksOf10 l).flatten = l := by
  unfold chunksOf10
  apply chunksOf10_join
  have h1 := Nat.div_add_mod (l.length + 9) 10
  have h2 : (l.length + 9) % 10 < 10 := Nat.mod_lt _ (by norm_num)
  omega

theorem mem_chunksOf10 (l : List α) (a : α) :
    (∃ c ∈ chunksOf10 l, a ∈ c) ↔ a ∈ l := by
  rw [← List.mem_flatten, chunksOf10_flatten]

/-! ### Membership characterization of the token collector -/

theorem gateToken_eq_some (category : String) (d : DeviceDoc) (t : String) :
    gateToken category d = some t ↔
      prefLookup d.preferences category ≠ some false ∧
        d.token = some t ∧ t ≠ "" := by
  unfold gateToken
  by_cases hp : prefLookup d.preferences category = some false
  · simp [hp]
  · rw [if_neg hp]
    cases htk : d.token with
    | none => simp [hp, htk]
    | some t' =>
      show (if t' = "" then none else some t') = some t ↔ _
      by_cases ht : t' = ""
      · rw [if_pos ht]
        constructor
        · intro h; cases h
        · rintro ⟨-, h2, h3⟩
          rw [Option.some.injEq] at h2
          exact absurd (by rw [← h2]; exact ht) h3
      · simp only [if_neg ht, hp, htk, ne_eq, not_false_iff, true_and,
          Option.some.injEq]
        constructor
        · rintro rfl; exact ⟨rfl, ht⟩
        · rintro ⟨rfl, _⟩; rfl

theorem mem_queryDevices (s : Store) (group : List String) (d : DeviceDoc) :
    d ∈ queryDevices s group ↔
      d ∈ s ∧ d.enabled = true ∧ ∃ u, d.userId = some u ∧ u ∈ group := by
  unfold queryDevices
  rw [List.mem_filter]
  have hmatch :
      ((match d.userId with
        | some u => group.contains u
        | none => false) = true) ↔ ∃ u, d.userId = some u ∧ u ∈ group := by
    cases h : d.userId <;> simp [h]
  constructor
  · rintro ⟨hd, hcond⟩
    rw [Bool.and_eq_true] at hcond
    exact ⟨hd, hcond.1, hmatch.mp hcond.2⟩
  · rintro ⟨hd, hen, hu⟩
    exact ⟨hd, by rw [Bool.and_eq_true]; exact ⟨hen, hmatch.mpr hu⟩⟩

theorem mem_collectDeviceTokens (s : Store) (userIds : List String)
    (category : String) (t : String) :
    t ∈ collectDeviceTokensByUserIds s userIds category ↔
      ∃ d ∈ s, d.enabled = true ∧
        (∃ u, d.userId = some u ∧ u ∈ userIds) ∧
        prefLookup d.preferences category ≠ some false ∧
        d.token = some t ∧ t ≠ "" := by
  unfold collectDeviceTokensByUserIds
  by_cases hempty : userIds.isEmpty
  · rw [if_pos hempty]
    rw [List.isEmpty_iff] at hempty
    subst hempty
    simp
  · rw [if_neg hempty, mem_dedupFirst, List.mem_flatMap]
    constructor
    · rintro ⟨group, hgroup, hmem⟩
      rw [List.mem_filterMap] at hmem
      obtain ⟨d, hdq, hgate⟩ := hmem
      rw [mem_queryDevices] at hdq
      obtain ⟨hds, hen, u, hu, hug⟩ := hdq
      rw [gateToken_eq_some] at hgate
      exact ⟨d, hds, hen, ⟨u, hu, (mem_chunksOf10 userIds u).mp ⟨group, hgroup, hug⟩⟩,
        hgate.1, hgate.2.1, hgate.2.2⟩
    · rintro ⟨d, hds, hen, ⟨u, hu, hug⟩, hpref, htok, hne⟩
      obtain ⟨group, hgroup, hug'⟩ := (mem_chunksOf10 userIds u).mpr hug
      refine ⟨group, hgroup, ?_⟩
      rw [List.mem_filterMap]
      exact ⟨d, (mem_queryDevices s group d).mpr ⟨hds, hen, u, hu, hug'⟩,
        (gateToken_eq_some category d t).mpr ⟨hpref, htok, hne⟩⟩

/-! ### The disabled-device invariant behind claim C1 -/

theorem mem_setMerge_elim {s : Store} {k : String} {f : DeviceDoc → DeviceDoc}
    {init d' : DeviceDoc} (h : d' ∈ setMerge s k f init) :
    (∃ d ∈ s, d.id = k ∧ d' = f d) ∨ (∃ d ∈ s, d.id ≠ k ∧ d' = d) ∨
      d' = init := by
  unfold setMerge at h
  split at h
  · rw [List.mem_map] at h
    obtain ⟨d, hd, rfl⟩ := h
    by_cases hk : d.id = k
    · exact Or.inl ⟨d, hd, hk, by simp [hk]⟩
    · refine Or.inr (Or.inl ⟨d, hd, hk, ?_⟩)
      simp [hk]
  · next hany =>
    rw [List.mem_append, List.mem_singleton] at h
    rcases h with h | h
    · refine Or.inr (Or.inl ⟨d', h, ?_, rfl⟩)
      intro hk
      exact hany (List.any_eq_true.mpr ⟨d', h, by simp [hk]⟩)
    · exact Or.inr (Or.inr h)

theorem setMerge_forall {P : DeviceDoc → Prop} {s : Store} {k : String}
    {f : DeviceDoc → DeviceDoc} {init : DeviceDoc}
    (h1 : ∀ d ∈ s, d.id = k → P (f d))
    (h2 : ∀ d ∈ s, d.id ≠ k → P d)
    (h3 : P init) :
    ∀ d' ∈ setMerge s k f init, P d' := by
  intro d' hd'
  rcases mem_setMerge_elim hd' with ⟨d, hd, hk, rfl⟩ | ⟨d, hd, hk, heq⟩ | rfl
  · exact h1 d hd hk
  · exact heq ▸ h2 d hd hk
  · exact h3

/-- The store stays well-formed under every endpoint operation. -/
theorem applyOp_WF {s : Store} (op : DeviceOp) (hwf : WFStore s) :
    WFStore (applyOp s op) := by
  cases op with
  | register rawToken uid role preferences platform ts =>
    by_cases h : rawToken = ""
    · simpa [applyOp, registerDevice, h] using hwf
    · simp only [applyOp, registerDevice, if_neg h, Except.toOption,
        Option.getD_some]
      refine setMerge_forall ?_ ?_ ?_
      · intro d _ hk t ht
        have ht' : rawToken = t := Option.some.inj ht
        show d.id = tokenId t
        rw [← ht']
        exact hk
      · intro d hd _ t ht
        exact hwf d hd t ht
      · intro t ht
        have ht' : rawToken = t := Option.some.inj ht
        show tokenId rawToken = tokenId t
        rw [ht']
  | unregister rawToken ts =>
    by_cases h : rawToken = ""
    · simpa [applyOp, unregisterDevice, h] using hwf
    · simp only [applyOp, unregisterDevice, if_neg h, Except.toOption,
        Option.getD_some]
      refine setMerge_forall ?_ ?_ ?_
      · intro d hd _ t ht
        show d.id = tokenId t
        exact hwf d hd t ht
      · intro d hd _ t ht
        exact hwf d hd t ht
      · intro t ht
        cases ht
  | updatePrefs rawToken preferences enabled ts =>
    by_cases h : rawToken = ""
    · simpa [applyOp, updateDevicePreferences, h] using hwf
    · simp only [applyOp, updateDevicePreferences, if_neg h, Except.toOption,
        Option.getD_some]
      refine setMerge_forall ?_ ?_ ?_
      · intro d hd _ t ht
        show d.id = tokenId t
        exact hwf d hd t ht
      · intro d hd _ t ht
        exact hwf d hd t ht
      · intro t ht
        cases ht

/-- The device holding `rawToken` is disabled everywhere in the store. -/
def Disabled (rawToken : String) (s : Store) : Prop :=
  ∀ d ∈ s, d.token = some rawToken → d.enabled = false

/-- Claim C1's step invariant: an operation that does not re-enable the
device of `rawToken` keeps it disabled. -/
theorem applyOp_preserves_disabled {s : Store} {rawToken : String}
    (op : DeviceOp) (hwf : WFStore s) (hdis : Disabled rawToken s)
    (hre : reenables rawToken op = false) :
    Disabled rawToken (applyOp s op) := by
  cases op with
  | register t' uid role preferences platform ts =>
    simp only [reenables, beq_eq_false_iff_ne, ne_eq] at hre
    by_cases h : t' = ""
    · simpa [applyOp, registerDevice, h] using hdis
    · simp only [applyOp, registerDevice, if_neg h, Except.toOption,
        Option.getD_some]
      refine setMerge_forall ?_ ?_ ?_
      · intro d _ _ ht
        exact absurd (Option.some.inj ht) hre
      · intro d hd _ ht
        exact hdis d hd ht
      · intro ht
        exact absurd (Option.some.inj ht) hre
  | unregister t' ts =>
    by_cases h : t' = ""
    · simpa [applyOp, unregisterDevice, h] using hdis
    · simp only [applyOp, unregisterDevice, if_neg h, Except.toOption,
        Option.getD_some]
      refine setMerge_forall ?_ ?_ ?_
      · intro d _ _ _
        rfl
      · intro d hd _ ht
        exact hdis d hd ht
      · intro _
        rfl
  | updatePrefs t' preferences enabled ts =>
    simp only [reenables, Bool.and_eq_false_iff, beq_eq_false_iff_ne, ne_eq] at hre
    by_cases h : t' = ""
    · simpa [applyOp, updateDevicePreferences, h] using hdis
    · simp only [applyOp, updateDevicePreferences, if_neg h, Except.toOption,
        Option.getD_some]
      refine setMerge_forall ?_ ?_ ?_
      · intro d hd hk ht
        have ht' : d.token = some rawToken := ht
        have hid : d.id = tokenId rawToken := hwf d hd rawToken ht'
        have heq : t' = rawToken := tokenId_injective (by rw [← hk, hid])
        rcases hre with hre | hre
        · exact absurd heq hre
        · show jsEnabledFlag enabled = false
          exact hre
      · intro d hd _ ht
        exact hdis d hd ht
      · intro ht
        cases ht

theorem applyOps_preserves_disabled {rawToken : String} :
    ∀ (ops : List DeviceOp) (s : Store), WFStore s → Disabled rawToken s →
      (∀ op ∈ ops, reenables rawToken op = false) →
      Disabled rawToken (applyOps s ops) := by
  intro ops
  induction ops with
  | nil => intro s _ hdis _; exact hdis
  | cons op ops ih =>
    intro s hwf hdis hre
    simp only [applyOps, List.foldl_cons]
    exact ih (applyOp s op) (applyOp_WF op hwf)
      (applyOp_preserves_disabled op hwf hdis (hre op (List.mem_cons_self op ops)))
      (fun o ho => hre o (List.mem_cons_of_mem op ho))

/-- After a successful unregister call on a well-formed store, the device of
`rawToken` is disabled, and the store is still well-formed. -/
theorem unregister_disables {s s' : Store} {rawToken : String} {ts : Nat}
    (hwf : WFStore s) (h : unregisterDevice s rawToken ts = .ok s') :
    Disabled rawToken s' ∧ WFStore s' := by
  by_cases he : rawToken = ""
  · rw [unregisterDevice, if_pos he] at h
    cases h
  · rw [unregisterDevice, if_neg he, Except.ok.injEq] at h
    subst h
    constructor
    · refine setMerge_forall ?_ ?_ ?_
      · intro d _ _ _
        rfl
      · intro d hd hk ht
        exact absurd (hwf d hd rawToken ht) hk
      · intro _
        rfl
    · have : WFStore (applyOp s (.unregister rawToken ts)) :=
        applyOp_WF _ hwf
      simpa [applyOp, unregisterDevice, if_neg he, Except.toOption] using this

/-- A disabled token is never collected. -/
theorem disabled_not_collected {s : Store} {rawToken : String}
    (hdis : Disabled rawToken s) (userIds : List String) (category : String) :
    rawToken ∉ collectDeviceTokensByUserIds s userIds category := by
  rw [mem_collectDeviceTokens]
  rintro ⟨d, hds, hen, -, -, htok, -⟩
  rw [hdis d hds htok] at hen
  cases hen

/-- A token collection is either empty or a `new Set` image, hence has no
duplicates. -/
theorem collect_nodup (s : Store) (userIds : List String) (category : String) :
    (collectDeviceTokensByUserIds s userIds category).Nodup := by
  unfold collectDeviceTokensByUserIds
  split
  · exact List.nodup_nil
  · exact dedupFirst_nodup _

/-! ## Claim theorems -/

/-- C1: after `unregisterDevice(rawToken)` sets the device's enabled flag to
false, `collectTokens` for any user set and any category never returns that
device's token, across any further sequence of device operations none of which
re-enables the device. -/
theorem C1_unregister_excludes_token
    (s s' : Store) (rawToken : String) (ts : Nat) (ops : List DeviceOp)
    (userIds : List String) (category : String)
    (hwf : WFStore s)
    (hunreg : unregisterDevice s rawToken ts = .ok s')
    (hre : ∀ op ∈ ops, reenables rawToken op = false) :
    rawToken ∉ collectDeviceTokensByUserIds (applyOps s' ops) userIds category := by
  obtain ⟨hdis, hwf'⟩ := unregister_disables hwf hunreg
  exact disabled_not_collected
    (applyOps_preserves_disabled ops s' hwf' hdis hre) userIds category

/-- Witness for C1 at a concrete device store. -/
theorem C1_unregister_excludes_token_witness :
    "tok" ∉ collectDeviceTokensByUserIds
      (applyOps
        [{ id := tokenId "tok", token := some "tok", userId := some "alice",
           role := some "member", preferences := [], enabled := false,
           platform := some "web", createdAt := some 0, updatedAt := some 1 }]
        [.updatePrefs "tok" none (some false) 2])
      ["alice"] "reminder" :=
  C1_unregister_excludes_token
    [{ id := tokenId "tok", token := some "tok", userId := some "alice",
       role := some "member", preferences := [], enabled := true,
       platform := some "web", createdAt := some 0, updatedAt := some 0 }]
    [{ id := tokenId "tok", token := some "tok", userId := some "alice",
       role := some "member", preferences := [], enabled := false,
       platform := some "web", createdAt := some 0, updatedAt := some 1 }]
    "tok" 1 [.updatePrefs "tok" none (some false) 2] ["alice"] "reminder"
    (by
      intro d hd t ht
      rw [List.mem_singleton] at hd
      subst hd
      cases ht
      rfl)
    (by rfl)
    (by
      intro op hop
      rw [List.mem_singleton] at hop
      subst hop
      rfl)

/-- C2 is contradicted by the code: `registerDevice` writes
`createdAt: serverTimestamp()` unconditionally inside the merge-set, so a
repeated registration of the same token overwrites the stored `createdAt`
instead of preserving it. Registering `"tok"` at server time 1 and again at
server time 2 leaves `createdAt = 2`. -/
theorem C2_registerDevice_overwrites_createdAt :
    ∃ s1 s2 : Store,
      registerDevice [] "tok" "alice" none none none 1 = .ok s1 ∧
      registerDevice s1 "tok" "alice" none none none 2 = .ok s2 ∧
      (s1.find? (fun d => d.id == tokenId "tok")).map (·.createdAt) =
        some (some 1) ∧
      (s2.find? (fun d => d.id == tokenId "tok")).map (·.createdAt) =
        some (some 2) := by
  exact ⟨_, _, rfl, rfl, rfl, rfl⟩

/-- C7: with no eligible tokens, `sendToUsers` returns `{success:0, failure:0}`
and issues no gateway call; with eligible tokens, it issues exactly one
multicast request carrying exactly those tokens and returns the gateway's
success/failure counts verbatim. -/
theorem C7_dispatch_empty_and_multicast
    (gateway : List String → Nat × Nat) (appBaseUrl : String) (s : Store)
    (userIds : List String) (title body : String) (link : Option String)
    (category : String) :
    (collectDeviceTokensByUserIds s userIds category = [] →
      sendToUsers gateway appBaseUrl s userIds title body link category =
        ((0, 0), [])) ∧
    (collectDeviceTokensByUserIds s userIds category ≠ [] →
      sendToUsers gateway appBaseUrl s userIds title body link category =
        (gateway (collectDeviceTokensByUserIds s userIds category),
         [{ tokens := collectDeviceTokensByUserIds s userIds category,
            title := title, body := body,
            link := resolveLink link appBaseUrl, category := category }])) := by
  constructor
  · intro h
    simp [sendToUsers, h]
  · intro h
    rw [sendToUsers]
    simp only [List.isEmpty_iff]
    rw [if_neg h]

/-- Witness for C7: an empty store dispatches nothing, a store with one
enabled device yields exactly one multicast call with that token. -/
theorem C7_dispatch_empty_and_multicast_witness :
    sendToUsers (fun l => (l.length, 0)) "" [] ["u"] "T" "B" none "reminder" =
      ((0, 0), []) ∧
    sendToUsers (fun l => (l.length, 0)) ""
      [{ id := tokenId "tok", token := some "tok", userId := some "u",
         enabled := true }] ["u"] "T" "B" none "reminder" =
      ((1, 0), [{ tokens := ["tok"], title := "T", body := "B", link := "/",
                  category := "reminder" }]) := by
  constructor
  · exact (C7_dispatch_empty_and_multicast (fun l => (l.length, 0)) "" []
      ["u"] "T" "B" none "reminder").1 (by rfl)
  · have h := (C7_dispatch_empty_and_multicast (fun l => (l.length, 0)) ""
      [{ id := tokenId "tok", token := some "tok", userId := some "u",
         enabled := true }] ["u"] "T" "B" none "reminder").2 (by decide)
    rw [h]
    rfl

/-- C9 as stated is false: `unregisterDevice` on a token with no matching
record is an upsert, so it creates a stub record (`enabled=false`) rather
than leaving the store unchanged. On the empty store the call produces a
one-record store. -/
theorem C9_counterexample_creates_record :
    unregisterDevice ([] : Store) "tok" 0 =
      .ok [{ id := tokenId "tok", enabled := false, updatedAt := some 0 }] ∧
    ([{ id := tokenId "tok", enabled := false, updatedAt := some 0 }] : Store)
      ≠ ([] : Store) := by
  constructor
  · rfl
  · intro h
    cases h

/-- C9 amended: `unregisterDevice` on a raw token whose hash matches no
existing record does not report an error; it appends a stub record with
`enabled=false` (an upsert), and the result of `collectTokens` is unchanged
for every user set and category. -/
theorem C9_unregister_unknown_token
    (s : Store) (rawToken : String) (ts : Nat)
    (hne : rawToken ≠ "")
    (hmiss : ∀ d ∈ s, d.id ≠ tokenId rawToken) :
    ∃ s', unregisterDevice s rawToken ts = .ok s' ∧
      s' = s ++ [{ id := tokenId rawToken, enabled := false,
                   updatedAt := some ts }] ∧
      ∀ userIds category,
        collectDeviceTokensByUserIds s' userIds category =
          collectDeviceTokensByUserIds s userIds category := by
  have hany : (s.any (fun d => d.id == tokenId rawToken)) = false := by
    rw [List.any_eq_false]
    intro d hd
    simpa using hmiss d hd
  have hs' : unregisterDevice s rawToken ts =
      .ok (s ++ [{ id := tokenId rawToken, enabled := false,
                   updatedAt := some ts }]) := by
    rw [unregisterDevice, if_neg hne]
    unfold setMerge
    rw [if_neg (by simp [hany])]
  refine ⟨_, hs', rfl, ?_⟩
  intro userIds category
  have hquery : ∀ g, queryDevices
      (s ++ [{ id := tokenId rawToken, enabled := false,
               updatedAt := some ts }]) g = queryDevices s g := by
    intro g
    unfold queryDevices
    rw [List.filter_append]
    simp
  simp only [collectDeviceTokensByUserIds, hquery]

/-- Witness for C9's amended statement at a concrete store. -/
theorem C9_unregister_unknown_token_witness :
    ∃ s', unregisterDevice
        [{ id := tokenId "other", token := some "other", userId := some "bob",
           enabled := true }] "tok" 3 = .ok s' ∧
      s' = [{ id := tokenId "other", token := some "other",
              userId := some "bob", enabled := true }] ++
        [{ id := tokenId "tok", enabled := false, updatedAt := some 3 }] ∧
      ∀ userIds category,
        collectDeviceTokensByUserIds s' userIds category =
          collectDeviceTokensByUserIds
            [{ id := tokenId "other", token := some "other",
               userId := some "bob", enabled := true }] userIds category :=
  C9_unregister_unknown_token
    [{ id := tokenId "other", token := some "other", userId := some "bob",
       enabled := true }] "tok" 3 (by decide)
    (by
      intro d hd
      rw [List.mem_singleton] at hd
      subst hd
      decide)

/-- C10: every token returned by `collectTokens` is a non-empty string; a
record whose stored token is absent or empty is silently excluded by the
`if (data.token)` truthiness guard. -/
theorem C10_collect_tokens_nonempty
    (s : Store) (userIds : List String) (category : String) (t : String)
    (ht : t ∈ collectDeviceTokensByUserIds s userIds category) : t ≠ "" := by
  rw [mem_collectDeviceTokens] at ht
  obtain ⟨d, -, -, -, -, -, hne⟩ := ht
  exact hne

/-- Witness for C10: a concrete collected token is non-empty. -/
theorem C10_collect_tokens_nonempty_witness :
    "tok" ∈ collectDeviceTokensByUserIds
      [{ id := tokenId "tok", token := some "tok", userId := some "u",
         enabled := true }] ["u"] "news" ∧ "tok" ≠ "" :=
  ⟨by decide,
   C10_collect_tokens_nonempty
     [{ id := tokenId "tok", token := some "tok", userId := some "u",
        enabled := true }] ["u"] "news" "tok" (by decide)⟩

/-- C4: over a user-id list of size 25 the collector issues exactly 3 batched
lookups — one per chunk, with chunk sizes 10, 10 and 5, never more than 10 ids
per query — and the returned token list has no duplicates. -/
theorem C4_chunking_and_dedup
    (s : Store) (userIds : List String) (category : String)
    (h25 : userIds.length = 25) :
    (chunksOf10 userIds).length = 3 ∧
    (chunksOf10 userIds).map List.length = [10, 10, 5] ∧
    (∀ c ∈ chunksOf10 userIds, c.length ≤ 10) ∧
    (collectDeviceTokensByUserIds s userIds category).Nodup := by
  have hchunks : chunksOf10 userIds =
      [(userIds.drop (10 * 0)).take 10, (userIds.drop (10 * 1)).take 10,
       (userIds.drop (10 * 2)).take 10] := by
    unfold chunksOf10
    rw [h25]
    norm_num
    rw [(by decide : List.range 3 = [0, 1, 2])]
    rfl
  refine ⟨by rw [hchunks]; rfl, ?_, chunksOf10_length_le userIds,
    collect_nodup s userIds category⟩
  rw [hchunks]
  simp [List.length_take, List.length_drop, h25]

/-- Witness for C4 at a concrete 25-element user-id list. -/
theorem C4_chunking_and_dedup_witness :
    (chunksOf10 ["a1", "a2", "a3", "a4", "a5", "a6", "a7", "a8", "a9", "b1",
      "b2", "b3", "b4", "b5", "b6", "b7", "b8", "b9", "c1", "c2", "c3", "c4",
      "c5", "c6", "c7"]).length = 3 ∧
    (chunksOf10 ["a1", "a2", "a3", "a4", "a5", "a6", "a7", "a8", "a9", "b1",
      "b2", "b3", "b4", "b5", "b6", "b7", "b8", "b9", "c1", "c2", "c3", "c4",
      "c5", "c6", "c7"]).map List.length = [10, 10, 5] ∧
    (∀ c ∈ chunksOf10 ["a1", "a2", "a3", "a4", "a5", "a6", "a7", "a8", "a9",
      "b1", "b2", "b3", "b4", "b5", "b6", "b7", "b8", "b9", "c1", "c2", "c3",
      "c4", "c5", "c6", "c7"], c.length ≤ 10) ∧
    (collectDeviceTokensByUserIds
      [{ id := tokenId "tok", token := some "tok", userId := some "a1",
         enabled := true },
       { id := tokenId "tok2", token := some "tok", userId := some "b1",
         enabled := true }]
      ["a1", "a2", "a3", "a4", "a5", "a6", "a7", "a8", "a9", "b1", "b2", "b3",
       "b4", "b5", "b6", "b7", "b8", "b9", "c1", "c2", "c3", "c4", "c5", "c6",
       "c7"] "news").Nodup :=
  C4_chunking_and_dedup
    [{ id := tokenId "tok", token := some "tok", userId := some "a1",
       enabled := true },
     { id := tokenId "tok2", token := some "tok", userId := some "b1",
       enabled := true }]
    ["a1", "a2", "a3", "a4", "a5", "a6", "a7", "a8", "a9", "b1", "b2", "b3",
     "b4", "b5", "b6", "b7", "b8", "b9", "c1", "c2", "c3", "c4", "c5", "c6",
     "c7"] "news" (by decide)

/-- `find?` over a map whose function preserves the search predicate. -/
theorem find?_map_pred {α : Type} {g : α → α} {p : α → Bool}
    (hp : ∀ d, p (g d) = p d) (s : List α) :
    (s.map g).find? p = (s.find? p).map g := by
  induction s with
  | nil => rfl
  | cons d ds ih =>
    by_cases hpd : p d = true
    · simp [List.find?_cons, hp d, hpd]
    · have hfalse : p d = false := by
        revert hpd; cases p d <;> simp
      simp [List.find?_cons, hp d, hfalse, ih]

/-- C8: `updatePreferences` replaces the stored preference map wholesale with
the supplied one (`preferences || {}`) — not a merge with previously stored
categories — sets `enabled` to `enabled !== false`, and preserves the
remaining stored fields of the record. The stored enabled flag is true iff
the call did not pass `enabled` explicitly equal to `false`. -/
theorem C8_updatePreferences_replaces_wholesale
    (s : Store) (rawToken : String)
    (preferences : Option (List (String × Bool))) (enabled : Option Bool)
    (ts : Nat) (old : DeviceDoc)
    (hne : rawToken ≠ "")
    (hold : s.find? (fun d => d.id == tokenId rawToken) = some old) :
    ∃ s', updateDevicePreferences s rawToken preferences enabled ts = .ok s' ∧
      s'.find? (fun d => d.id == tokenId rawToken) =
        some { old with preferences := preferences.getD []
                        enabled := jsEnabledFlag enabled
                        updatedAt := some ts } ∧
      (jsEnabledFlag enabled = true ↔ enabled ≠ some false) := by
  have holdmem : old ∈ s := List.mem_of_find?_eq_some hold
  have holdp : (old.id == tokenId rawToken) = true := by
    have h := List.find?_some hold
    simpa using h
  have hany : (s.any (fun d => d.id == tokenId rawToken)) = true :=
    List.any_eq_true.mpr ⟨old, holdmem, holdp⟩
  have hs' : updateDevicePreferences s rawToken preferences enabled ts =
      .ok (s.map (fun d =>
        if d.id == tokenId rawToken then
          { d with preferences := preferences.getD []
                   enabled := jsEnabledFlag enabled
                   updatedAt := some ts }
        else d)) := by
    rw [updateDevicePreferences, if_neg hne]
    unfold setMerge
    rw [if_pos (by rw [hany])]
  refine ⟨_, hs', ?_, ?_⟩
  · rw [find?_map_pred (by
      intro d
      by_cases hd : (d.id == tokenId rawToken) = true
      · rw [hd]; simp only [if_pos rfl]; exact hd
      · have hd' : (d.id == tokenId rawToken) = false := by
          revert hd; cases d.id == tokenId rawToken <;> simp
        simp [hd'])]
    rw [hold]
    simp [holdp]
    intro hcontra
    exact absurd (by simpa using holdp) hcontra
  · cases enabled with
    | none => simp [jsEnabledFlag]
    | some b => cases b <;> simp [jsEnabledFlag]

/-- Witness for C8: updating `{b: false}` over a record previously holding
`{a: true}` leaves exactly `{b: false}`. -/
theorem C8_updatePreferences_replaces_wholesale_witness :
    ∃ s', updateDevicePreferences
        [{ id := tokenId "tok", token := some "tok", userId := some "u",
           role := some "member", preferences := [("a", true)],
           enabled := true, platform := some "web", createdAt := some 0,
           updatedAt := some 0 }] "tok" (some [("b", false)]) none 5 = .ok s' ∧
      s'.find? (fun d => d.id == tokenId "tok") =
        some { id := tokenId "tok", token := some "tok", userId := some "u",
               role := some "member", preferences := [("b", false)],
               enabled := jsEnabledFlag none, platform := some "web",
               createdAt := some 0, updatedAt := some 5 } ∧
      (jsEnabledFlag none = true ↔ (none : Option Bool) ≠ some false) :=
  C8_updatePreferences_replaces_wholesale
    [{ id := tokenId "tok", token := some "tok", userId := some "u",
       role := some "member", preferences := [("a", true)], enabled := true,
       platform := some "web", createdAt := some 0, updatedAt := some 0 }]
    "tok" (some [("b", false)]) none 5
    { id := tokenId "tok", token := some "tok", userId := some "u",
      role := some "member", preferences := [("a", true)], enabled := true,
      platform := some "web", createdAt := some 0, updatedAt := some 0 }
    (by decide) (by rfl)

/-- C3: the preference gate excludes a device exactly when its stored
preferences map the category explicitly to `false` — an absent category lets
the token through. First part: for an enabled, owned, token-bearing device
record (the unique record holding its token), its token is collected iff
`preferences[category]` is not explicitly `false`. Second part: after
`updatePreferences(token, {catX: false})`, `collectTokens` for `catX`
excludes the token while `collectTokens` for an unset `catY` still includes
it. -/
theorem C3_preference_gate_exact :
    (∀ (s : Store) (userIds : List String) (category t u : String)
        (d : DeviceDoc),
        d ∈ s → (∀ d' ∈ s, d'.token = some t → d' = d) →
        d.enabled = true → d.userId = some u → u ∈ userIds →
        d.token = some t → t ≠ "" →
        (t ∈ collectDeviceTokensByUserIds s userIds category ↔
          prefLookup d.preferences category ≠ some false)) ∧
    (∀ (s s' : Store) (userIds : List String) (catX catY rawToken u : String)
        (old : DeviceDoc) (ts : Nat),
        WFStore s → catY ≠ catX →
        s.find? (fun d => d.id == tokenId rawToken) = some old →
        old.userId = some u → u ∈ userIds → old.token = some rawToken →
        rawToken ≠ "" →
        updateDevicePreferences s rawToken (some [(catX, false)]) none ts =
          .ok s' →
        rawToken ∉ collectDeviceTokensByUserIds s' userIds catX ∧
        rawToken ∈ collectDeviceTokensByUserIds s' userIds catY) := by
  constructor
  · intro s userIds category t u d hd huniq hen huid hu htok hne
    rw [mem_collectDeviceTokens]
    constructor
    · rintro ⟨d', hd', -, -, hpref, htok', -⟩
      rw [huniq d' hd' htok'] at hpref
      exact hpref
    · intro hpref
      exact ⟨d, hd, hen, ⟨u, huid, hu⟩, hpref, htok, hne⟩
  · intro s s' userIds catX catY rawToken u old ts hwf hXY hold huid hu htok hne hupd
    have holdmem : old ∈ s := List.mem_of_find?_eq_some hold
    have holdp : (old.id == tokenId rawToken) = true := by
      have h := List.find?_some hold
      simpa using h
    have hany : (s.any (fun d => d.id == tokenId rawToken)) = true :=
      List.any_eq_true.mpr ⟨old, holdmem, holdp⟩
    have hs' : s' = s.map (fun d =>
        if d.id == tokenId rawToken then
          { d with preferences := [(catX, false)]
                   enabled := jsEnabledFlag none
                   updatedAt := some ts }
        else d) := by
      rw [updateDevicePreferences, if_neg hne] at hupd
      unfold setMerge at hupd
      rw [if_pos (by rw [hany])] at hupd
      exact (Except.ok.inj hupd).symm
    constructor
    · rw [mem_collectDeviceTokens]
      rintro ⟨d', hd', hen, -, hpref, htok', -⟩
      rw [hs', List.mem_map] at hd'
      obtain ⟨d0, hd0, rfl⟩ := hd'
      by_cases hid : (d0.id == tokenId rawToken) = true
      · rw [if_pos hid] at hpref
        exact hpref (by simp [prefLookup])
      · rw [if_neg hid] at htok'
        have : d0.id = tokenId rawToken := hwf d0 hd0 rawToken htok'
        exact hid (by simp [this])
    · rw [mem_collectDeviceTokens]
      refine ⟨{ old with preferences := [(catX, false)]
                         enabled := jsEnabledFlag none
                         updatedAt := some ts }, ?_, rfl, ⟨u, huid, hu⟩,
        ?_, htok, hne⟩
      · rw [hs']
        refine List.mem_map.mpr ⟨old, holdmem, ?_⟩
        rw [if_pos holdp]
      · have hbeq : (catX == catY) = false := beq_eq_false_iff_ne.mpr hXY.symm
        simp [prefLookup, hbeq]

/-- Witness for C3 at a concrete store: the device opts out of `news` but not
of `sport`; after `updatePreferences(tok, {news: false})` the token is absent
for `news` and present for `sport`. -/
theorem C3_preference_gate_exact_witness :
    ("tok" ∈ collectDeviceTokensByUserIds
        [{ id := tokenId "tok", token := some "tok", userId := some "u",
           preferences := [("news", false)], enabled := true }] ["u"] "news" ↔
      prefLookup [("news", false)] "news" ≠ some false) ∧
    ("tok" ∉ collectDeviceTokensByUserIds
        [{ id := tokenId "tok", token := some "tok", userId := some "u",
           preferences := [("news", false)], enabled := true,
           updatedAt := some 7 }] ["u"] "news" ∧
      "tok" ∈ collectDeviceTokensByUserIds
        [{ id := tokenId "tok", token := some "tok", userId := some "u",
           preferences := [("news", false)], enabled := true,
           updatedAt := some 7 }] ["u"] "sport") := by
  constructor
  · exact (C3_preference_gate_exact.1
      [{ id := tokenId "tok", token := some "tok", userId := some "u",
         preferences := [("news", false)], enabled := true }]
      ["u"] "news" "tok" "u"
      { id := tokenId "tok", token := some "tok", userId := some "u",
        preferences := [("news", false)], enabled := true }
      (by decide)
      (by
        intro d' hd' _
        rw [List.mem_singleton] at hd'
        exact hd')
      rfl rfl (by decide) rfl (by decide))
  · exact C3_preference_gate_exact.2
      [{ id := tokenId "tok", token := some "tok", userId := some "u",
         preferences := [], enabled := true }]
      [{ id := tokenId "tok", token := some "tok", userId := some "u",
         preferences := [("news", false)], enabled := true,
         updatedAt := some 7 }]
      ["u"] "news" "sport" "tok" "u"
      { id := tokenId "tok", token := some "tok", userId := some "u",
        preferences := [], enabled := true }
      7
      (by
        intro d hd t ht
        rw [List.mem_singleton] at hd
        subst hd
        cases ht
        rfl)
      (by decide) (by rfl) rfl (by decide) rfl (by decide) (by rfl)

/-- C5: 25 days before the first day of next month the monthly-schedule
reminder skips with reason "outside reminder window" and dispatches nothing;
3 days before, with no schedule stored for that month, it does not skip,
notifies exactly the active root users, and its recipient count is positive
whenever an active root user exists. -/
theorem C5_monthly_reminder_window
    (gateway : List String → Nat × Nat) (appBaseUrl : String)
    (users : List UserRec) (devices : Store) (schedules : List Schedule)
    (nextMonthStart : Int) (monthKey : String) :
    (remindNextMonthSchedule gateway appBaseUrl users devices schedules
        (nextMonthStart - 25) nextMonthStart monthKey =
      (.skipped "outside reminder window", [])) ∧
    ((∀ sc ∈ schedules, sc.month ≠ monthKey) →
      ∃ success failure calls,
        remindNextMonthSchedule gateway appBaseUrl users devices schedules
            (nextMonthStart - 3) nextMonthStart monthKey =
          (.sent monthKey (activeRootUserIds users).length success failure,
           calls) ∧
        ((∃ uu ∈ users, uu.active = true ∧ uu.role = "root") →
          0 < (activeRootUserIds users).length)) := by
  constructor
  · rw [remindNextMonthSchedule, if_pos (by omega)]
  · intro hnone
    have hany : (schedules.any (fun sc => sc.month == monthKey)) = false := by
      rw [List.any_eq_false]
      intro sc hsc
      simpa using hnone sc hsc
    have heq : remindNextMonthSchedule gateway appBaseUrl users devices
        schedules (nextMonthStart - 3) nextMonthStart monthKey =
        (.sent monthKey (activeRootUserIds users).length
          (sendToUsers gateway appBaseUrl devices (activeRootUserIds users)
            "Promemoria scala mensile"
            ("Manca la scala di " ++ monthKey ++ ". Generala appena possibile.")
            (some "/schedules/generate") "reminder").1.1
          (sendToUsers gateway appBaseUrl devices (activeRootUserIds users)
            "Promemoria scala mensile"
            ("Manca la scala di " ++ monthKey ++ ". Generala appena possibile.")
            (some "/schedules/generate") "reminder").1.2,
         (sendToUsers gateway appBaseUrl devices (activeRootUserIds users)
            "Promemoria scala mensile"
            ("Manca la scala di " ++ monthKey ++ ". Generala appena possibile.")
            (some "/schedules/generate") "reminder").2) := by
      rw [remindNextMonthSchedule, if_neg (by omega), hany,
        if_neg Bool.false_ne_true]
    refine ⟨_, _, _, heq, ?_⟩
    rintro ⟨uu, huu, hact, hrole⟩
    have hmem : uu.id ∈ activeRootUserIds users := by
      unfold activeRootUserIds
      rw [List.mem_map]
      exact ⟨uu, List.mem_filter.mpr ⟨huu, by simp [hact, hrole]⟩, rfl⟩
    exact List.length_pos.mpr (List.ne_nil_of_mem hmem)

/-- Witness for C5 with one active root user and no stored schedules. -/
theorem C5_monthly_reminder_window_witness :
    (remindNextMonthSchedule (fun l => (l.length, 0)) "" [
        { id := "root1", active := true, role := "root" }] [] []
        (100 - 25) 100 "2026-11" =
      (.skipped "outside reminder window", [])) ∧
    (∃ success failure calls,
      remindNextMonthSchedule (fun l => (l.length, 0)) "" [
          { id := "root1", active := true, role := "root" }] [] []
          (100 - 3) 100 "2026-11" =
        (.sent "2026-11"
          (activeRootUserIds [{ id := "root1", active := true,
                                role := "root" }]).length success failure,
         calls) ∧
      0 < (activeRootUserIds [{ id := "root1", active := true,
                                role := "root" }]).length) := by
  have h := C5_monthly_reminder_window (fun l => (l.length, 0)) ""
    [{ id := "root1", active := true, role := "root" }] [] [] 100 "2026-11"
  refine ⟨h.1, ?_⟩
  obtain ⟨success, failure, calls, heq, hpos⟩ := h.2 (by intro sc hsc; cases hsc)
  exact ⟨success, failure, calls, heq,
    hpos ⟨{ id := "root1", active := true, role := "root" },
      List.mem_singleton.mpr rfl, rfl, rfl⟩⟩

/-- C6: in the repertoire-entry reminder loop, a service with at least one
song sub-document is skipped entirely (the loop step is the identity: nothing
dispatched, nothing counted); a songless service whose worship-lead assignment
resolves to exactly one linked active user gets exactly one recipient — that
user — counted once; and a songless service with no lead recipients falls
back to all active minister users. -/
theorem C6_repertoire_reminder_step
    (gateway : List String → Nat × Nat) (appBaseUrl : String)
    (users : List UserRec) (devices : Store) (schedules : List Schedule) :
    (∀ (acc : JobSummary × List DispatchCall) (service : Service),
        service.songs ≠ [] →
        remindServiceSongsEntryStep gateway appBaseUrl users devices schedules
          acc service = acc) ∧
    (∀ (acc : JobSummary × List DispatchCall) (service : Service)
        (schedule : Schedule) (ss : SchedService) (wl : Assignment)
        (p uId : String),
        service.songs = [] →
        schedules.find? (fun sc => sc.month == service.date.take 7) =
          some schedule →
        schedule.services.find? (fun x => x.serviceId == service.id) =
          some ss →
        ss.assignments.find? (fun a => a.positionId == worshipLeaderPositionId)
          = some wl →
        wl.personId = some p → p ≠ "" →
        usersLinkedTo users [p] = [uId] →
        serviceSongsEntryRecipients users schedules service = [uId] ∧
        (remindServiceSongsEntryStep gateway appBaseUrl users devices
            schedules acc service).1.notifiedServices =
          acc.1.notifiedServices + 1 ∧
        (remindServiceSongsEntryStep gateway appBaseUrl users devices
            schedules acc service).1.recipients = acc.1.recipients + 1) ∧
    (∀ (service : Service),
        serviceSongsEntryLeadRecipients users schedules service = [] →
        serviceSongsEntryRecipients users schedules service =
          activeMinisterUserIds users) := by
  refine ⟨?_, ?_, ?_⟩
  · intro acc service hsongs
    rw [remindServiceSongsEntryStep,
      if_pos (by simpa [List.isEmpty_iff] using hsongs)]
  · intro acc service schedule ss wl p uId hsongs hfind1 hfind2 hfind3 hpid
      hp hlink
    have hclean : [p].filter (fun x => x ≠ "") = [p] := by
      simp [hp]
    have hcollect : collectUserIdsByLinkedPersonIds users [p] = [uId] := by
      unfold collectUserIdsByLinkedPersonIds
      rw [hclean]
      have hded : dedupFirst [p] = [p] := by
        simp [dedupFirst]
      rw [hded]
      rw [if_neg (by simp)]
      have hch : chunksOf10 [p] = [[p]] := by
        simp [chunksOf10, List.range_succ]
      rw [hch]
      simp only [List.flatMap_cons, List.flatMap_nil, List.append_nil]
      rw [hlink]
      simp [dedupFirst]
    have hlead : serviceSongsEntryLeadRecipients users schedules service =
        [uId] := by
      simp only [serviceSongsEntryLeadRecipients, hfind1, hfind2, hfind3, hpid]
      rw [if_neg hp]
      exact hcollect
    have hrec : serviceSongsEntryRecipients users schedules service = [uId] := by
      unfold serviceSongsEntryRecipients
      rw [hlead]
      rfl
    refine ⟨hrec, ?_, ?_⟩
    · rw [remindServiceSongsEntryStep,
        if_neg (by simp [hsongs]), hrec]
    · rw [remindServiceSongsEntryStep,
        if_neg (by simp [hsongs]), hrec]
      rfl
  · intro service hlead
    unfold serviceSongsEntryRecipients
    rw [hlead]
    rfl

/-- Witness for C6: a service with a song is skipped; a songless
service whose worship lead is linked to the single active user `u1` yields
exactly one recipient; with no resolvable lead the fallback is the active
ministers. -/
theorem C6_repertoire_reminder_step_witness :
    (remindServiceSongsEntryStep (fun l => (l.length, 0)) "" [
        { id := "u1", active := true, role := "member",
          linkedPersonId := some "person1" }] [] [
        { month := "2026-10", services := [
          { serviceId := "svc1", assignments := [
            { personId := some "person1",
              positionId := worshipLeaderPositionId }] }] }]
        ({ targetDate := "2026-10-15", checkedServices := 2,
           notifiedServices := 0, recipients := 0, success := 0,
           failure := 0 }, [])
        { id := "svc2", date := "2026-10-15", songs := ["song1"] } =
      ({ targetDate := "2026-10-15", checkedServices := 2,
         notifiedServices := 0, recipients := 0, success := 0,
         failure := 0 }, [])) ∧
    (serviceSongsEntryRecipients [
        { id := "u1", active := true, role := "member",
          linkedPersonId := some "person1" }] [
        { month := "2026-10", services := [
          { serviceId := "svc1", assignments := [
            { personId := some "person1",
              positionId := worshipLeaderPositionId }] }] }]
        { id := "svc1", date := "2026-10-15", songs := [] } = ["u1"] ∧
      (remindServiceSongsEntryStep (fun l => (l.length, 0)) "" [
          { id := "u1", active := true, role := "member",
            linkedPersonId := some "person1" }] [] [
          { month := "2026-10", services := [
            { serviceId := "svc1", assignments := [
              { personId := some "person1",
                positionId := worshipLeaderPositionId }] }] }]
          ({ targetDate := "2026-10-15", checkedServices := 2,
             notifiedServices := 0, recipients := 0, success := 0,
             failure := 0 }, [])
          { id := "svc1", date := "2026-10-15", songs := [] }).1.notifiedServices =
        (({ targetDate := "2026-10-15", checkedServices := 2,
            notifiedServices := 0, recipients := 0, success := 0,
            failure := 0 }, []) :
          JobSummary × List DispatchCall).1.notifiedServices + 1 ∧
      (remindServiceSongsEntryStep (fun l => (l.length, 0)) "" [
          { id := "u1", active := true, role := "member",
            linkedPersonId := some "person1" }] [] [
          { month := "2026-10", services := [
            { serviceId := "svc1", assignments := [
              { personId := some "person1",
                positionId := worshipLeaderPositionId }] }] }]
          ({ targetDate := "2026-10-15", checkedServices := 2,
             notifiedServices := 0, recipients := 0, success := 0,
             failure := 0 }, [])
          { id := "svc1", date := "2026-10-15", songs := [] }).1.recipients =
        (({ targetDate := "2026-10-15", checkedServices := 2,
            notifiedServices := 0, recipients := 0, success := 0,
            failure := 0 }, []) :
          JobSummary × List DispatchCall).1.recipients + 1) ∧
    (serviceSongsEntryRecipients [
        { id := "m1", active := true, role := "minister" }] []
        { id := "svc3", date := "2026-10-15", songs := [] } =
      activeMinisterUserIds [{ id := "m1", active := true,
                               role := "minister" }]) := by
  have h := C6_repertoire_reminder_step (fun l => (l.length, 0)) ""
    [{ id := "u1", active := true, role := "member",
       linkedPersonId := some "person1" }] []
    [{ month := "2026-10", services := [
      { serviceId := "svc1", assignments := [
        { personId := some "person1",
          positionId := worshipLeaderPositionId }] }] }]
  have h3 := C6_repertoire_reminder_step (fun l => (l.length, 0)) ""
    [{ id := "m1", active := true, role := "minister" }] [] []
  refine ⟨?_, ?_, ?_⟩
  · exact h.1 _ _ (by decide)
  · exact h.2.1
      ({ targetDate := "2026-10-15", checkedServices := 2,
         notifiedServices := 0, recipients := 0, success := 0,
         failure := 0 }, [])
      { id := "svc1", date := "2026-10-15", songs := [] }
      { month := "2026-10", services := [
        { serviceId := "svc1", assignments := [
          { personId := some "person1",
            positionId := worshipLeaderPositionId }] }] }
      { serviceId := "svc1", assignments := [
        { personId := some "person1",
          positionId := worshipLeaderPositionId }] }
      { personId := some "person1", positionId := worshipLeaderPositionId }
      "person1" "u1" rfl (by decide) (by decide) (by decide) rfl (by decide)
      (by decide)
  · exact h3.2.2 _ (by decide)

end WorshipBackend
